import Mathlib

/-
Verification of the Yandex Maps scraping core (src/src/scraper.py and
src/src/storage.py) against its natural-language specification.

The Python code is shallowly embedded: pure string manipulation is
translated to executable Lean functions over Lists of Chars, and the
browser/network/filesystem environment is made explicit as data passed
to the embedded control flow.  Python exceptions are modelled with
Except or with Option/flags at the point where the source catches them.
-/

namespace YandexScrape

/-! ## Python string primitives

Models of the Python string operations the scraper uses:
`in` (substring test), `str.replace`, `str.strip`, `str.lower`,
`str.split(sep)`.  All are defined over `List Char` by structural or
fuel-indexed recursion so that concrete runs reduce inside the kernel.
-/

/-- Test whether the first list is a prefix of the second (Char lists). -/
def isPrefixCL : List Char → List Char → Bool
  | [], _ => true
  | _ :: _, [] => false
  | p :: ps, c :: cs => p == c && isPrefixCL ps cs

/-- Python substring test `pat in s` over Char lists. -/
def containsCL (pat : List Char) : List Char → Bool
  | [] => isPrefixCL pat []
  | c :: cs => isPrefixCL pat (c :: cs) || containsCL pat cs

/-- Python substring test `pat in s` for Strings. -/
def containsSub (s pat : String) : Bool := containsCL pat.data s.data

/-- Fuel-indexed worker for Python `str.replace`: replaces every
non-overlapping occurrence of `pat` left to right.  One unit of fuel is
spent per output step; fuel equal to the length of the input suffices
because `pat` is nonempty at every call site. -/
def replaceAux (pat rep : List Char) : Nat → List Char → List Char
  | 0, s => s
  | _ + 1, [] => []
  | fuel + 1, c :: cs =>
    if isPrefixCL pat (c :: cs) then
      rep ++ replaceAux pat rep fuel ((c :: cs).drop pat.length)
    else
      c :: replaceAux pat rep fuel cs

/-- Python `s.replace(pat, rep)`.  All call sites in the scraper pass a
nonempty `pat`; for an empty `pat` we return `s` unchanged. -/
def pyReplace (s pat rep : String) : String :=
  match pat.data with
  | [] => s
  | _ :: _ => String.mk (replaceAux pat.data rep.data s.data.length s.data)

/-- ASCII whitespace recognizer used by the model of `str.strip`. -/
def isSpaceCL (c : Char) : Bool := c == ' ' || c == '\t' || c == '\n' || c == '\r'

/-- Python `s.strip()` (ASCII whitespace; the scraper only strips
selector text and URLs, which are ASCII-delimited). -/
def pyStrip (s : String) : String :=
  String.mk (((s.data.dropWhile isSpaceCL).reverse.dropWhile isSpaceCL).reverse)

/-- Python `s.lower()` (ASCII case folding suffices for the URL-path
markers the scraper lowercases). -/
def pyLower (s : String) : String := String.mk (s.data.map Char.toLower)

/-- Fuel-indexed worker for Python `str.split(sep)` with nonempty `sep`:
`acc` is the current chunk, reversed. -/
def splitAux (sep : List Char) : Nat → List Char → List Char → List (List Char)
  | 0, acc, s => [acc.reverse ++ s]
  | _ + 1, acc, [] => [acc.reverse]
  | fuel + 1, acc, c :: cs =>
    if isPrefixCL sep (c :: cs) then
      acc.reverse :: splitAux sep fuel [] ((c :: cs).drop sep.length)
    else
      splitAux sep fuel (c :: acc) cs

/-- Python `s.split(sep)` for a nonempty separator (all call sites pass
"," or " " or "?" or "/").  Like Python, the result is always nonempty
and keeps empty chunks. -/
def pySplit (s sep : String) : List String :=
  (splitAux sep.data s.data.length [] s.data).map String.mk

/-! ## Models of the numeric-extraction regexes

`_extract_rating` applies `re.search` with the pattern digit-run with an
optional fractional part; `_extract_reviews_count` applies `re.search`
with a plain digit-run pattern.  Both take `group(1)`, the first match.
-/

/-- First match of the regex for one or more digits: the maximal digit
run starting at the leftmost digit. -/
def firstIntCL : List Char → Option (List Char)
  | [] => none
  | c :: cs =>
    if c.isDigit then some (c :: cs.takeWhile Char.isDigit)
    else firstIntCL cs

/-- First match of the decimal regex used by `_extract_rating`: a digit
run optionally followed by a dot and a further digit run, starting at
the leftmost digit. -/
def firstDecimalCL : List Char → Option (List Char)
  | [] => none
  | c :: cs =>
    if c.isDigit then
      let intPart := c :: cs.takeWhile Char.isDigit
      match cs.dropWhile Char.isDigit with
      | '.' :: r =>
        let frac := r.takeWhile Char.isDigit
        if frac.isEmpty then some intPart else some (intPart ++ '.' :: frac)
      | _ => some intPart
    else firstDecimalCL cs

/-- The numeric-extraction step of `_extract_rating` (scraper.py lines
552-558): on truthy text, return the first decimal match, else the
empty string. -/
def extractRatingFrom (t : String) : String :=
  if t ≠ "" then
    match firstDecimalCL t.data with
    | some m => String.mk m
    | none => ""
  else ""

/-- The numeric-extraction step of `_extract_reviews_count` (scraper.py
lines 570-576): on truthy text, return the first integer match, else
the empty string. -/
def extractCountFrom (t : String) : String :=
  if t ≠ "" then
    match firstIntCL t.data with
    | some m => String.mk m
    | none => ""
  else ""

/-- C9: the rating numeric-extraction step maps "4.9" to "4.9",
"Rating 4.9" to "4.9", and "" to ""; the review-count step maps clean
integer input "1611" to itself, noisy "1611 ratings" to "1611", and ""
to "".  The empty string is the absent sentinel in every case. -/
theorem C9_numeric_idempotence :
    extractRatingFrom "4.9" = "4.9" ∧
    extractRatingFrom "Rating 4.9" = "4.9" ∧
    extractRatingFrom "" = "" ∧
    extractCountFrom "1611" = "1611" ∧
    extractCountFrom "1611 ratings" = "1611" ∧
    extractCountFrom "" = "" := by
  refine ⟨?_, ?_, rfl, ?_, ?_, rfl⟩ <;> decide

/-! ## DOM model and extraction helpers

`driver.find_element` either returns an element or raises
`NoSuchElementException` (modelled as `Option`).  Reading a matched
element (`el.text`, `el.get_attribute`) can itself raise, most notably
`StaleElementReferenceException`, which is NOT a subclass of
`NoSuchElementException` and is therefore not caught by the
`except NoSuchElementException` clauses of `_get_text` and
`_get_attribute`.
-/

/-- The Python exceptions the scraper can observe, at the granularity
the embedding needs. -/
inductive PyErr where
  | staleElement
  | attributeError
  | nameError
  | valueError
  | webDriverError
  | timeoutError
  | otherError
deriving DecidableEq, Repr

/-- A DOM element handle: reading `.text` or an attribute may raise
(stale element).  `get_attribute` returns `none` for an absent
attribute (Python `None`). -/
structure Element where
  textRead : Except PyErr String
  attr : String → Except PyErr (Option String)

/-- A page handle: `find_element` by selector; `none` models
`NoSuchElementException`. -/
structure Page where
  findElement : String → Option Element

/-- `_get_text` (scraper.py lines 486-501): try selectors in order;
`NoSuchElementException` moves to the next selector; a matched element
yields its stripped visible text, falling back to stripped
`textContent`; empty text moves on; no match at all yields "".  A raise
while reading a matched element (stale element; or `AttributeError`
from stripping a `None` textContent) propagates. -/
def getText (page : Page) : List String → Except PyErr String
  | [] => .ok ""
  | sel :: rest =>
    match page.findElement sel with
    | none => getText page rest
    | some el =>
      match el.textRead with
      | .error e => .error e
      | .ok t =>
        let t := pyStrip t
        if t ≠ "" then .ok t
        else
          match el.attr "textContent" with
          | .error e => .error e
          | .ok none => .error .attributeError
          | .ok (some t2) =>
            let t2 := pyStrip t2
            if t2 ≠ "" then .ok t2 else getText page rest

/-- `_get_attribute` (scraper.py lines 521-531): try selectors in
order; `NoSuchElementException` moves on; a truthy attribute value is
returned stripped; falsy (absent or empty) moves on; no match at all
yields "".  A raise while reading a matched element propagates. -/
def getAttr (page : Page) (attrName : String) : List String → Except PyErr String
  | [] => .ok ""
  | sel :: rest =>
    match page.findElement sel with
    | none => getAttr page attrName rest
    | some el =>
      match el.attr attrName with
      | .error e => .error e
      | .ok none => getAttr page attrName rest
      | .ok (some v) => if v ≠ "" then .ok (pyStrip v) else getAttr page attrName rest

/-- The `handle_errors(default_return=...)` decorator
(decorators.py lines 35-54, applied to `_extract_details`): an ok body
passes through, any raised exception is swallowed and replaced by the
default. -/
def handleErrors {α : Type} (defaultReturn : α) (body : Except PyErr α) : α :=
  match body with
  | .ok a => a
  | .error _ => defaultReturn

/-- One listing step of `run` (scraper.py lines 149-167): navigation
may raise (first component), then `_extract_details` — wrapped by
`handle_errors(default_return=None)` — produces `Option` of a record
or raises (second component). -/
def processListing {α : Type} (step : Except PyErr Unit × Except PyErr (Option α)) : Option α :=
  match step.1 with
  | .error _ => none
  | .ok _ => handleErrors none step.2

/-- The per-listing loop of `run`: every listing whose step raised or
returned `None` is skipped, all others are appended in order. -/
def collectListings {α : Type} (steps : List (Except PyErr Unit × Except PyErr (Option α))) :
    List α :=
  steps.filterMap processListing

/-- A page on which every selector matches an element whose text read
raises a stale-element exception. -/
def stalePage : Page :=
  { findElement := fun _ => some { textRead := .error .staleElement, attr := fun _ => .ok none } }

/-- A page on which no selector matches anything. -/
def emptyPage : Page := { findElement := fun _ => none }

/-- C1 counterexample: the claim says a stale-element raise while
reading a matched element never propagates out of the field extractor;
on a page whose matched element raises stale on `.text`, `_get_text`
propagates the exception instead of returning "". -/
theorem C1_counterexample :
    getText stalePage [".orgpage-header-view__title"] = .error .staleElement := rfl

/-- C1 (amended): selector-not-found failures are field-local —
`_get_text` and `_get_attribute` return "" when no selector in their
list matches — but a stale-element raise while reading a matched
element propagates out of `_get_text`; it is then swallowed by the
listing-level `handle_errors(None)` wrapper, so the listing is dropped
and the batch continues. -/
theorem C1_amended :
    (∀ (page : Page) (sels : List String) (a : String),
      (∀ s ∈ sels, page.findElement s = none) →
      getText page sels = .ok "" ∧ getAttr page a sels = .ok "") ∧
    (∀ (page : Page) (s : String) (rest : List String) (el : Element) (e : PyErr),
      page.findElement s = some el → el.textRead = .error e →
      getText page (s :: rest) = .error e) ∧
    (∀ (α : Type) (pre post : List (Except PyErr Unit × Except PyErr (Option α))) (e : PyErr),
      collectListings (pre ++ (Except.ok (), Except.error e) :: post) =
        collectListings pre ++ collectListings post) := by
  refine ⟨?_, ?_, ?_⟩
  · intro page sels a h
    induction sels with
    | nil => exact ⟨rfl, rfl⟩
    | cons s rest ih =>
      have hs : page.findElement s = none := h s (List.mem_cons_self s rest)
      have hrest := ih (fun x hx => h x (List.mem_cons_of_mem s hx))
      constructor
      · show getText page (s :: rest) = .ok ""
        unfold getText
        rw [hs]
        exact hrest.1
      · show getAttr page a (s :: rest) = .ok ""
        unfold getAttr
        rw [hs]
        exact hrest.2
  · intro page s rest el e hfind htext
    simp only [getText, hfind, htext]
  · intro α pre post e
    simp [collectListings, List.filterMap_append, List.filterMap_cons, processListing,
      handleErrors]

/-- C1 amended witness: on a page with no matches, `_get_text` and
`_get_attribute` return ""; on a page whose matched element is stale,
`_get_text` propagates the stale exception; and a listing whose
extraction raised is dropped from the batch while the rest survive. -/
theorem C1_amended_witness :
    (getText emptyPage ["h1"] = .ok "" ∧ getAttr emptyPage "href" ["h1"] = .ok "") ∧
    getText stalePage ["h1", "h2"] =
      Except.error PyErr.staleElement ∧
    collectListings
      ([] ++ (Except.ok (), (Except.error PyErr.staleElement : Except PyErr (Option Nat))) ::
        [(Except.ok (), Except.ok (some 7))]) =
      collectListings [] ++ collectListings [(Except.ok (), Except.ok (some 7))] := by
  refine ⟨?_, ?_, ?_⟩
  · exact C1_amended.1 emptyPage ["h1"] "href" (by intro s _; rfl)
  · exact C1_amended.2.1 stalePage "h1" ["h2"]
      { textRead := .error .staleElement, attr := fun _ => .ok none } .staleElement rfl rfl
  · exact C1_amended.2.2 Nat [] [(Except.ok (), Except.ok (some 7))] .staleElement

/-! ## Review pipeline (`_extract_reviews`, scraper.py lines 696-774)

Per review item, every sub-extraction is individually guarded by a bare
`except`, so a failed read is an absent value; the environment
therefore supplies each raw read as an `Option String` (`none` = the
element was absent or the read raised).  The tab switch and the item
query happen before the loop inside one outer `try`; a raise there
returns the empty review list.
-/

/-- One parsed review record. -/
structure Review where
  author : String
  text : String
  rating : String
  date : String
deriving DecidableEq, Repr

/-- The raw reads `_extract_reviews` performs on one review item.  Each
field is the outcome of a bare-except-guarded element lookup plus read:
`none` when the element was missing or the read raised. -/
structure ReviewItem where
  ratingTextRaw : Option String
  starsAria : Option String
  authorItemprop : Option String
  authorPlain : Option String
  bodySpoiler : Option String
  bodyPlain : Option String
  dateRaw : Option String
deriving DecidableEq, Repr

/-- `_get_text_from_element` (scraper.py lines 776-780): stripped text
of the matched child, "" on any exception. -/
def getTextFromElement (raw : Option String) : String :=
  match raw with
  | some t => pyStrip t
  | none => ""

/-- Rating resolution per review (scraper.py lines 726-746): prefer the
stripped rating-text element; when falsy, fall back to the first
decimal number in the stars aria-label, "" when that too is absent. -/
def parseReviewRating (it : ReviewItem) : String :=
  let ratingText := getTextFromElement it.ratingTextRaw
  if ratingText = "" then
    match it.starsAria with
    | some aria =>
      if aria ≠ "" then
        match firstDecimalCL aria.data with
        | some m => String.mk m
        | none => ""
      else ""
    | none => ""
  else ratingText

/-- The keep condition of `_extract_reviews` (scraper.py line 766):
`if (r["text"] or r["author"]) and r["rating"]: reviews.append(r)`. -/
def keepReview (r : Review) : Option Review :=
  if (r.text ≠ "" ∨ r.author ≠ "") ∧ r.rating ≠ "" then some r else none

/-- Parse one review item (scraper.py lines 748-767): author and body
each use a two-selector fallback; the review is kept only if it has
(text or author) and a rating. -/
def parseReview (it : ReviewItem) : Option Review :=
  let author :=
    let a := getTextFromElement it.authorItemprop
    if a ≠ "" then a else getTextFromElement it.authorPlain
  let text :=
    let b := getTextFromElement it.bodySpoiler
    if b ≠ "" then b else getTextFromElement it.bodyPlain
  keepReview ⟨author, text, parseReviewRating it, getTextFromElement it.dateRaw⟩

/-- The environment of one `_extract_reviews` call: whether the
pre-loop region (tab switch, item query) raised, the items found on the
first query, and the items found after the one scroll-and-retry used
when the first query is empty. -/
structure ReviewEnv where
  outerRaises : Bool
  items : List ReviewItem
  retryItems : List ReviewItem
deriving DecidableEq, Repr

/-- `_extract_reviews`: on a pre-loop raise the collected (empty) list
is returned; otherwise the first five items in DOM order are parsed and
the valid ones kept. -/
def extractReviews (env : ReviewEnv) : List Review :=
  if env.outerRaises then []
  else
    let reviewItems := if env.items.isEmpty then env.retryItems else env.items
    (reviewItems.take 5).filterMap parseReview

/-- Validity predicate of the spec: a kept review has a rating and at
least one of text or author. -/
def validReview (r : Review) : Bool :=
  (r.rating != "") && ((r.text != "") || (r.author != ""))

/-- Inversion for the keep filter: a kept review satisfies the
validity predicate. -/
theorem keepReview_some_valid (r r2 : Review) (h : keepReview r = some r2) :
    validReview r2 = true := by
  unfold keepReview at h
  split at h
  · rename_i hc
    injection h with h
    subst h
    obtain ⟨ht, hr⟩ := hc
    simp only [validReview, Bool.and_eq_true, bne_iff_ne, ne_eq, Bool.or_eq_true]
    exact ⟨hr, by rcases ht with h | h <;> [left; right] <;> exact h⟩
  · exact absurd h (by simp)

/-- Any result of `parseReview` comes through `keepReview`. -/
theorem parseReview_valid (it : ReviewItem) (r : Review) (h : parseReview it = some r) :
    validReview r = true := keepReview_some_valid _ r h

/-- C3: every review list produced by `_extract_reviews` has length at
most 5, and every element has a nonempty rating and a nonempty text or
author; parsed reviews failing the predicate are dropped without
error. -/
theorem C3_reviews_invariant (env : ReviewEnv) :
    (extractReviews env).length ≤ 5 ∧ (extractReviews env).all validReview = true := by
  constructor
  · unfold extractReviews
    split
    · simp
    · exact le_trans (List.length_filterMap_le _ _) (List.length_take_le 5 _)
  · rw [List.all_eq_true]
    intro r hr
    unfold extractReviews at hr
    split at hr
    · simp at hr
    · obtain ⟨it, _, hparse⟩ := List.mem_filterMap.mp hr
      exact parseReview_valid it r hparse

/-! ## Photo pipeline (`_extract_photos`, scraper.py lines 591-694) -/

theorem containsCL_cons_false {pat : List Char} {c : Char} {cs : List Char}
    (h : containsCL pat (c :: cs) = false) :
    isPrefixCL pat (c :: cs) = false ∧ containsCL pat cs = false := by
  unfold containsCL at h
  exact Bool.or_eq_false_iff.mp h

theorem replaceAux_of_not_contains (pat rep : List Char) (fuel : Nat) (s : List Char)
    (h : containsCL pat s = false) : replaceAux pat rep fuel s = s := by
  induction fuel generalizing s with
  | zero => rfl
  | succ n ih =>
    cases s with
    | nil => rfl
    | cons c cs =>
      obtain ⟨h1, h2⟩ := containsCL_cons_false h
      unfold replaceAux
      rw [h1]
      simp only [Bool.false_eq_true, if_false]
      rw [ih cs h2]

/-- A Python `str.replace` whose pattern does not occur leaves the
string unchanged. -/
theorem pyReplace_of_not_contains (s pat rep : String) (h : containsSub s pat = false) :
    pyReplace s pat rep = s := by
  unfold pyReplace
  cases hp : pat.data with
  | nil => rfl
  | cons p ps =>
    unfold containsSub at h
    rw [hp] at h
    rw [replaceAux_of_not_contains (p :: ps) rep.data s.data.length s.data h]

/-- The thumbnail-to-high-resolution URL rewriting of `_extract_photos`
(scraper.py lines 636-643): a guarded batch of `S_height`-family
replacements, then unconditional replacements of `M_height`,
`L_height`, fixed small dimensions, and the headline-background
marker. -/
def rewriteSrc (src : String) : String :=
  let src :=
    if containsSub src "S_height" || containsSub src "XXS" || containsSub src "XS_height" then
      pyReplace (pyReplace (pyReplace src "S_height" "XL") "XXS_height" "XL") "XS_height" "XL"
    else src
  let src := pyReplace (pyReplace src "M_height" "XL") "L_height" "XL"
  let src := pyReplace (pyReplace (pyReplace src "200x200" "orig") "400x400" "orig")
    "600x600" "orig"
  pyReplace src "priority-headline-background" "XL"

/-- C6 counterexample: a URL carrying the small-thumbnail marker "XXS"
(with no "_height" suffix) trips the small-thumbnail check, yet none of
the three replacements in that branch fires, so the URL reaches the
download step unmodified instead of being rewritten to a
high-resolution marker. -/
theorem C6_counterexample :
    containsSub "https://i.ex/XXS/a.jpg" "XXS" = true ∧
    rewriteSrc "https://i.ex/XXS/a.jpg" = "https://i.ex/XXS/a.jpg" := by
  constructor <;> decide

/-- C6 (amended): URLs carrying one of the actually replaced markers
(`S_height` and its `XS_height`/`XXS_height` variants, `M_height`,
`L_height`, 200x200/400x400/600x600, priority-headline-background) are
rewritten toward the high-resolution markers "XL"/"orig" before
download, while a URL containing none of the known markers is passed to
download unmodified; the bare marker "XXS" without "_height" triggers
the small-thumbnail check but is left unchanged. -/
theorem C6_amended (src : String)
    (h1 : containsSub src "S_height" = false)
    (h2 : containsSub src "XXS" = false)
    (h3 : containsSub src "XS_height" = false)
    (_h4 : containsSub src "XXS_height" = false)
    (h5 : containsSub src "M_height" = false)
    (h6 : containsSub src "L_height" = false)
    (h7 : containsSub src "200x200" = false)
    (h8 : containsSub src "400x400" = false)
    (h9 : containsSub src "600x600" = false)
    (h10 : containsSub src "priority-headline-background" = false) :
    rewriteSrc src = src ∧
    rewriteSrc "https://i.ex/S_height/a.jpg" = "https://i.ex/XL/a.jpg" ∧
    rewriteSrc "https://i.ex/200x200/a.jpg" = "https://i.ex/orig/a.jpg" ∧
    rewriteSrc "https://i.ex/XS_height/a.jpg" = "https://i.ex/XXL/a.jpg" := by
  refine ⟨?_, by decide, by decide, by decide⟩
  unfold rewriteSrc
  rw [h1, h2, h3]
  simp only [Bool.or_self, Bool.false_or, Bool.false_eq_true, if_false]
  rw [pyReplace_of_not_contains _ _ _ h5, pyReplace_of_not_contains _ _ _ h6,
    pyReplace_of_not_contains _ _ _ h7, pyReplace_of_not_contains _ _ _ h8,
    pyReplace_of_not_contains _ _ _ h9, pyReplace_of_not_contains _ _ _ h10]

/-- C6 amended witness: a URL with none of the markers passes through
the rewriting step unchanged (and the concrete marker rewrites hold). -/
theorem C6_amended_witness :
    rewriteSrc "https://i.ex/orig/a.jpg" = "https://i.ex/orig/a.jpg" ∧
    rewriteSrc "https://i.ex/S_height/a.jpg" = "https://i.ex/XL/a.jpg" ∧
    rewriteSrc "https://i.ex/200x200/a.jpg" = "https://i.ex/orig/a.jpg" ∧
    rewriteSrc "https://i.ex/XS_height/a.jpg" = "https://i.ex/XXL/a.jpg" :=
  C6_amended "https://i.ex/orig/a.jpg" (by decide) (by decide) (by decide) (by decide)
    (by decide) (by decide) (by decide) (by decide) (by decide) (by decide)

/-- `os.path.join(folder, "photos", filename)` (POSIX form, folder
without trailing slash, as produced by `create_place_folder`). -/
def joinPath (folder fname : String) : String := folder ++ "/photos/" ++ fname

/-- Simplistic srcset parsing (scraper.py line 619):
`srcset.split(",")[-1].strip().split(" ")[0]`. -/
def parseSrcset (ss : String) : String :=
  ((pySplit (pyStrip ((pySplit ss ",").getLastD "")) " ").headD "")

/-- The environment of one candidate image in the gallery loop: the raw
`src`/`srcset` attribute reads, and the outcome of the download and the
optional PIL re-encode for this candidate. -/
structure ImageCandidate where
  /-- `img.get_attribute` raises (stale element): not guarded inside
  the loop, caught by the outer handler, aborting the loop. -/
  attrRaises : Bool
  srcAttr : Option String
  srcsetAttr : Option String
  /-- the `session.get` call raises (timeout, connection error). -/
  requestRaises : Bool
  /-- `resp.status_code`. -/
  status : Nat
  /-- `len(resp.content)`. -/
  contentLen : Nat
  /-- PIL open/convert/save succeeds. -/
  pilOk : Bool
  /-- size of the re-encoded file PIL writes. -/
  convertedLen : Nat
deriving DecidableEq, Repr

/-- One write of an image file plus the append to `downloaded_paths`,
with the observations the claims need: the candidate position `idx`
(0-based), the saved path, the fetched URL, the HTTP status and payload
size of the accepted response, the number of bytes actually written,
and whether they came from a PIL re-encode. -/
structure PhotoEvent where
  idx : Nat
  path : String
  url : String
  status : Nat
  payload : Nat
  size : Nat
  converted : Bool
deriving DecidableEq, Repr

/-- Outcome of one iteration of the download loop. -/
inductive CandOutcome where
  | skip
  | abort
  | write (e : PhotoEvent)
deriving DecidableEq, Repr

/-- Configuration slice of `_extract_photos`. -/
structure PhotoCfg where
  folder : String
  photoFormat : String
  maxPhotos : Nat
deriving DecidableEq, Repr

/-- `src` resolution (scraper.py lines 611-621): start from the `src`
attribute; a truthy `srcset` overrides it with the last comma
candidate. -/
def resolveSrc (c : ImageCandidate) : String :=
  let src := c.srcAttr.getD ""
  match c.srcsetAttr with
  | some ss => if ss ≠ "" then parseSrcset ss else src
  | none => src

/-- The final path segment used for the icon filter (scraper.py line
628): `src.split("?")[0].split("/")[-1] if "/" in src else src`. -/
def urlPathOf (src : String) : String :=
  if containsSub src "/" then
    (pySplit ((pySplit src "?").headD "") "/").getLastD ""
  else src

/-- Icon/logo/vector filter (scraper.py line 629). -/
def isIconLike (src : String) : Bool :=
  let p := pyLower (urlPathOf src)
  containsSub p "icon" || containsSub p "logo" || containsSub p "svg"

/-- One iteration of the download loop (scraper.py lines 610-690) for
the candidate at 0-based position `i`: resolve `src`, skip falsy or
icon-like sources, rewrite to high resolution, fetch; accept only a 200
response larger than 1000 bytes; re-encode when a non-jpg format is
configured and PIL succeeds, otherwise write the payload verbatim as
jpg.  An unguarded attribute read that raises aborts the whole loop. -/
def processCandidate (cfg : PhotoCfg) (i : Nat) (c : ImageCandidate) : CandOutcome :=
  if c.attrRaises then .abort
  else
    let src := resolveSrc c
    if src = "" then .skip
    else if isIconLike src then .skip
    else
      let url := rewriteSrc src
      if c.requestRaises then .skip
      else if c.status = 200 ∧ 1000 < c.contentLen then
        if (cfg.photoFormat = "webp" ∨ cfg.photoFormat = "png") ∧ cfg.photoFormat ≠ "jpg" then
          if c.pilOk then
            .write ⟨i, joinPath cfg.folder ("photo_" ++ toString (i + 1) ++ "." ++
              cfg.photoFormat), url, c.status, c.contentLen, c.convertedLen, true⟩
          else
            .write ⟨i, joinPath cfg.folder ("photo_" ++ toString (i + 1) ++ ".jpg"),
              url, c.status, c.contentLen, c.contentLen, false⟩
        else
          .write ⟨i, joinPath cfg.folder ("photo_" ++ toString (i + 1) ++ ".jpg"),
            url, c.status, c.contentLen, c.contentLen, false⟩
      else .skip

/-- The download loop over `imgs[:max_photos]`, threading the 0-based
candidate position; an abort stops and keeps what was collected. -/
def photoLoop (cfg : PhotoCfg) : Nat → List ImageCandidate → List PhotoEvent
  | _, [] => []
  | i, c :: cs =>
    match processCandidate cfg i c with
    | .abort => []
    | .skip => photoLoop cfg (i + 1) cs
    | .write e => e :: photoLoop cfg (i + 1) cs

/-- `_extract_photos`: a raise in the pre-loop region (cookie transfer,
image query) is caught by the outer handler and yields no downloads;
otherwise the loop runs over the first `max_photos` candidates.
Returns the write events and `downloaded_paths`. -/
def extractPhotos (cfg : PhotoCfg) (outerRaises : Bool) (cands : List ImageCandidate) :
    List PhotoEvent × List String :=
  if outerRaises then ([], [])
  else
    let evs := photoLoop cfg 0 (cands.take cfg.maxPhotos)
    (evs, evs.map (·.path))

/-- Inversion of a write outcome: the event records this candidate
position, an accepted (status 200, payload over 1000 bytes) response,
bytes written equal to the payload unless PIL re-encoded, and the
filename built from the 1-based candidate position. -/
theorem processCandidate_write (cfg : PhotoCfg) (i : Nat) (c : ImageCandidate)
    (e : PhotoEvent) (h : processCandidate cfg i c = .write e) :
    e.idx = i ∧ e.status = 200 ∧ 1000 < e.payload ∧
    (e.converted = false → e.size = e.payload) ∧
    (e.converted = true →
      e.path = joinPath cfg.folder ("photo_" ++ toString (e.idx + 1) ++ "." ++
        cfg.photoFormat)) ∧
    (e.converted = false →
      e.path = joinPath cfg.folder ("photo_" ++ toString (e.idx + 1) ++ ".jpg")) := by
  unfold processCandidate at h
  split at h
  · exact absurd h (by simp)
  · dsimp only at h
    split at h
    · exact absurd h (by simp)
    · split at h
      · exact absurd h (by simp)
      · split at h
        · exact absurd h (by simp)
        · split at h
          · rename_i hacc
            split at h
            · split at h <;> (injection h with h; subst h; simp_all)
            · injection h with h
              subst h
              simp_all
          · exact absurd h (by simp)

/-- Every event produced by the loop started at position `i` sits at a
position at least `i`, records that position, and satisfies the write
inversion facts. -/
theorem photoLoop_mem (cfg : PhotoCfg) (i : Nat) (cs : List ImageCandidate)
    (e : PhotoEvent) (h : e ∈ photoLoop cfg i cs) :
    i ≤ e.idx ∧ e.idx < i + cs.length ∧
    ∃ c, processCandidate cfg e.idx c = .write e := by
  induction cs generalizing i with
  | nil => cases h
  | cons c cs ih =>
    unfold photoLoop at h
    cases hp : processCandidate cfg i c with
    | abort => rw [hp] at h; cases h
    | skip =>
      rw [hp] at h
      obtain ⟨h1, h2, h3⟩ := ih (i + 1) h
      exact ⟨Nat.le_of_succ_le h1, by simpa [Nat.add_comm, Nat.add_left_comm] using h2, h3⟩
    | write ev =>
      rw [hp] at h
      rcases List.mem_cons.mp h with he | he
      · subst he
        have hid : e.idx = i := (processCandidate_write cfg i c e hp).1
        refine ⟨Nat.le_of_eq hid.symm, ?_, ⟨c, by rw [hid]; exact hp⟩⟩
        simp [hid]
      · obtain ⟨h1, h2, h3⟩ := ih (i + 1) he
        exact ⟨Nat.le_of_succ_le h1, by simpa [Nat.add_comm, Nat.add_left_comm] using h2, h3⟩

/-- The loop collects at most one event per candidate. -/
theorem photoLoop_length (cfg : PhotoCfg) (i : Nat) (cs : List ImageCandidate) :
    (photoLoop cfg i cs).length ≤ cs.length := by
  induction cs generalizing i with
  | nil => simp [photoLoop]
  | cons c cs ih =>
    unfold photoLoop
    cases processCandidate cfg i c with
    | abort => simp
    | skip => exact le_trans (ih (i + 1)) (Nat.le_succ _)
    | write ev => simpa using ih (i + 1)

/-- Candidate positions strictly increase along the collected events. -/
theorem photoLoop_chain (cfg : PhotoCfg) (i : Nat) (cs : List ImageCandidate) :
    (photoLoop cfg i cs).Chain' (fun a b => a.idx < b.idx) := by
  induction cs generalizing i with
  | nil => simp [photoLoop]
  | cons c cs ih =>
    unfold photoLoop
    cases hp : processCandidate cfg i c with
    | abort => simp
    | skip => exact ih (i + 1)
    | write ev =>
      refine List.chain'_cons'.mpr ⟨?_, ih (i + 1)⟩
      intro y hy
      have hid : ev.idx = i := (processCandidate_write cfg i c ev hp).1
      have := (photoLoop_mem cfg (i + 1) cs y (List.mem_of_mem_head? hy)).1
      omega

/-- C4 counterexample: with a non-jpg target format a successfully
re-encoded image is written with whatever size the encoder produced —
here 10 bytes — so a recorded path is not always backed by a write of
more than 1000 bytes, even though the download guard (status 200,
payload over 1000 bytes) passed. -/
theorem C4_counterexample :
    ¬ (∀ e ∈ (extractPhotos ⟨"f", "webp", 5⟩ false
        [⟨false, some "https://i.ex/a.jpg", none, false, 200, 1500, true, 10⟩]).1,
        1000 < e.size) := by
  intro h
  exact absurd (h ⟨0, "f/photos/photo_1.webp", "https://i.ex/a.jpg", 200, 1500, 10, true⟩
    (by decide)) (by decide)

/-- C4 (amended): every photo list has length at most `max_photos`; a
path is recorded exactly when a file is written for it, and only for a
response with HTTP status 200 and payload over 1000 bytes; the bytes
written are that payload (hence more than 1000) except when a non-jpg
re-encode succeeded, in which case the written size is whatever the
encoder produced. -/
theorem C4_amended (cfg : PhotoCfg) (outerRaises : Bool) (cands : List ImageCandidate) :
    (extractPhotos cfg outerRaises cands).2.length ≤ cfg.maxPhotos ∧
    (extractPhotos cfg outerRaises cands).2 =
      (extractPhotos cfg outerRaises cands).1.map (·.path) ∧
    ∀ e ∈ (extractPhotos cfg outerRaises cands).1,
      e.status = 200 ∧ 1000 < e.payload ∧
      (e.converted = false → e.size = e.payload ∧ 1000 < e.size) := by
  unfold extractPhotos
  split
  · exact ⟨by simp, rfl, by intro e he; cases he⟩
  · refine ⟨?_, rfl, ?_⟩
    · simpa using le_trans (photoLoop_length cfg 0 (cands.take cfg.maxPhotos))
        (List.length_take_le _ _)
    · intro e he
      obtain ⟨_, _, c, hc⟩ := photoLoop_mem cfg 0 (cands.take cfg.maxPhotos) e he
      obtain ⟨_, hst, hlen, hsz, _, _⟩ := processCandidate_write cfg e.idx c e hc
      exact ⟨hst, hlen, fun hf => ⟨hsz hf, by rw [hsz hf]; exact hlen⟩⟩

/-- C4 amended witness: one accepted jpg download of 1500 bytes gives
one recorded path whose write carries the 1500-byte payload. -/
theorem C4_amended_witness :
    ((extractPhotos ⟨"f", "jpg", 5⟩ false
        [⟨false, some "https://i.ex/a.jpg", none, false, 200, 1500, true, 10⟩]).2.length ≤ 5) ∧
    (⟨0, "f/photos/photo_1.jpg", "https://i.ex/a.jpg", 200, 1500, 1500, false⟩ ∈
      (extractPhotos ⟨"f", "jpg", 5⟩ false
        [⟨false, some "https://i.ex/a.jpg", none, false, 200, 1500, true, 10⟩]).1) ∧
    (1000 : Nat) < 1500 := by
  have h := C4_amended ⟨"f", "jpg", 5⟩ false
    [⟨false, some "https://i.ex/a.jpg", none, false, 200, 1500, true, 10⟩]
  refine ⟨h.1, by decide, ?_⟩
  exact (h.2.2 ⟨0, "f/photos/photo_1.jpg", "https://i.ex/a.jpg", 200, 1500, 1500, false⟩
    (by decide)).2.1

/-- C5 counterexample: two candidates where the first is filtered as an
icon and the second is downloaded: the single accepted file is named
`photo_2.jpg` after its candidate position, not `photo_1.jpg`, so
accepted downloads are not numbered consecutively from 1. -/
theorem C5_counterexample :
    (extractPhotos ⟨"f", "jpg", 5⟩ false
      [⟨false, some "https://i.ex/icon.svg", none, false, 200, 1500, true, 10⟩,
       ⟨false, some "https://i.ex/a.jpg", none, false, 200, 1500, true, 10⟩]).2 =
      ["f/photos/photo_2.jpg"] ∧
    (extractPhotos ⟨"f", "jpg", 5⟩ false
      [⟨false, some "https://i.ex/icon.svg", none, false, 200, 1500, true, 10⟩,
       ⟨false, some "https://i.ex/a.jpg", none, false, 200, 1500, true, 10⟩]).2 ≠
      ["f/photos/photo_1.jpg"] := by
  constructor <;> decide

/-- C5 (amended): saved files are numbered by their 1-based candidate
position in the discovered image list (`photo_{i+1}`), positions
strictly increase along the saved files and stay below `max_photos`,
but skipped candidates (icon filter, missing src, failed or undersized
download) leave gaps, so the numbers are not the consecutive 1..k. -/
theorem C5_amended (cfg : PhotoCfg) (outerRaises : Bool) (cands : List ImageCandidate) :
    (extractPhotos cfg outerRaises cands).1.Chain' (fun a b => a.idx < b.idx) ∧
    ∀ e ∈ (extractPhotos cfg outerRaises cands).1,
      e.idx < cfg.maxPhotos ∧
      (e.converted = true →
        e.path = joinPath cfg.folder ("photo_" ++ toString (e.idx + 1) ++ "." ++
          cfg.photoFormat)) ∧
      (e.converted = false →
        e.path = joinPath cfg.folder ("photo_" ++ toString (e.idx + 1) ++ ".jpg")) := by
  unfold extractPhotos
  split
  · exact ⟨by simp, by intro e he; cases he⟩
  · refine ⟨photoLoop_chain cfg 0 _, ?_⟩
    intro e he
    obtain ⟨_, hlt, c, hc⟩ := photoLoop_mem cfg 0 (cands.take cfg.maxPhotos) e he
    obtain ⟨_, _, _, _, hpc, hpj⟩ := processCandidate_write cfg e.idx c e hc
    refine ⟨lt_of_lt_of_le (by simpa using hlt) (List.length_take_le _ _), hpc, hpj⟩

/-- C5 amended witness: in the icon-then-photo run the accepted event
sits at candidate position 1 and is saved as `photo_2.jpg`. -/
theorem C5_amended_witness :
    ((extractPhotos ⟨"f", "jpg", 5⟩ false
      [⟨false, some "https://i.ex/icon.svg", none, false, 200, 1500, true, 10⟩,
       ⟨false, some "https://i.ex/a.jpg", none, false, 200, 1500, true, 10⟩]).1.Chain'
        (fun a b => a.idx < b.idx)) ∧
    (1 : Nat) < 5 ∧
    "f/photos/photo_2.jpg" = joinPath "f" ("photo_" ++ toString (1 + 1) ++ ".jpg") := by
  have h := C5_amended ⟨"f", "jpg", 5⟩ false
    [⟨false, some "https://i.ex/icon.svg", none, false, 200, 1500, true, 10⟩,
     ⟨false, some "https://i.ex/a.jpg", none, false, 200, 1500, true, 10⟩]
  have hm := h.2 ⟨1, "f/photos/photo_2.jpg", "https://i.ex/a.jpg", 200, 1500, 1500, false⟩
    (by decide)
  exact ⟨h.1, hm.1, hm.2.2 rfl⟩

/-! ## Listing discovery (`_scroll_and_collect_results`, scraper.py lines 208-273)

The loop body is driven by what the page renders at each iteration: the
elements found (`count`), the link each element resolves to after the
per-element selector fallback (`none` when every selector failed or the
attribute was falsy), and whether the `scrollIntoView` script call
succeeds.  A run is the loop applied to a finite trace of such
iterations; `none` means the loop was still running when the trace
ended.  The returned consumed-iterations list records how far the loop
got, so the stall property can be stated about it.
-/

/-- What one iteration of the results-panel loop observes. -/
structure ScrollIter where
  hrefs : List (Option String)
  count : Nat
  scrollOk : Bool
deriving DecidableEq, Repr

/-- Which of the three `return` sites of the loop fired. -/
inductive StopReason where
  | enough
  | stalled
  | scrollFail
deriving DecidableEq, Repr

/-- `links.add(href)` on a deduplicating collection (insertion order
kept; the claims only use cardinality). -/
def insertLink (links : List String) (h : String) : List String :=
  if h ∈ links then links else links ++ [h]

/-- The per-element collection pass: falsy hrefs are skipped
(scraper.py lines 226-249). -/
def collectFrom (links : List String) : List (Option String) → List String
  | [] => links
  | none :: t => collectFrom links t
  | some h :: t => collectFrom (if h = "" then links else insertLink links h) t

/-- The element count seen just before a suffix of the consumed trace:
the count of the last iteration of the prefix, or the count in force
at entry. -/
def prevCount (last : Nat) : List ScrollIter → Nat
  | [] => last
  | it :: rest => prevCount it.count rest

/-- The scroll loop (scraper.py lines 221-273): collect links, return
the first `max_results` once enough are held; on an unchanged element
count bump the stall counter and stop at 5; reset it on any change;
a failing scroll (with elements present) breaks the loop.  Returns the
consumed iterations together with the returned links and the exit
site; `none` when the trace ran out with the loop still going. -/
def scrollLoop (maxResults : Nat) :
    List ScrollIter → List String → Nat → Nat →
    Option (List ScrollIter × List String × StopReason)
  | [], _, _, _ => none
  | it :: rest, links, lastCount, attempts =>
    let links := collectFrom links it.hrefs
    if maxResults ≤ links.length then some ([it], links.take maxResults, .enough)
    else if it.count = lastCount then
      let attempts := attempts + 1
      if 5 ≤ attempts then some ([it], links.take maxResults, .stalled)
      else if it.count ≠ 0 ∧ it.scrollOk = false then
        some ([it], links.take maxResults, .scrollFail)
      else
        (scrollLoop maxResults rest links it.count attempts).map
          (fun res => (it :: res.1, res.2))
    else if it.count ≠ 0 ∧ it.scrollOk = false then
      some ([it], links.take maxResults, .scrollFail)
    else
      (scrollLoop maxResults rest links it.count 0).map
        (fun res => (it :: res.1, res.2))

/-- `_scroll_and_collect_results` started from the initial state:
no links, `last_count = 0`, `attempts = 0`. -/
def scrollAndCollectResults (maxResults : Nat) (trace : List ScrollIter) :
    Option (List ScrollIter × List String × StopReason) :=
  scrollLoop maxResults trace [] 0 0

/-- Loop invariant: the returned links never exceed the cap, the
enough exit returns exactly the cap, and the stalled exit is preceded
by a block of consecutive iterations — of length 5, or completing the
entry stall counter to 5 — whose element counts all equal the count in
force just before the block. -/
theorem scrollLoop_spec (N : Nat) (trace : List ScrollIter) (links : List String)
    (lastCount attempts : Nat) (hA : attempts ≤ 4)
    (c : List ScrollIter) (r : List String) (reason : StopReason)
    (h : scrollLoop N trace links lastCount attempts = some (c, r, reason)) :
    r.length ≤ N ∧
    (reason = .enough → r.length = N) ∧
    (reason = .stalled → ∃ p₁ p₂, c = p₁ ++ p₂ ∧
      (∀ it ∈ p₂, it.count = prevCount lastCount p₁) ∧
      (p₂.length = 5 ∨ (p₁ = [] ∧ p₂.length + attempts = 5))) := by
  induction trace generalizing links lastCount attempts c r reason with
  | nil => exact absurd h (by simp [scrollLoop])
  | cons it rest ih =>
    unfold scrollLoop at h
    dsimp only at h
    split at h
    · rename_i henough
      injection h with h
      injection h with h1 h
      injection h with h2 h3
      subst h1 h2 h3
      refine ⟨List.length_take_le _ _, fun _ => ?_, fun hst => absurd hst (by decide)⟩
      simp only [List.length_take]
      omega
    · rename_i hne
      split at h
      · rename_i hstall
        split at h
        · rename_i hfive
          injection h with h
          injection h with h1 h
          injection h with h2 h3
          subst h1 h2 h3
          refine ⟨List.length_take_le _ _, fun he => absurd he (by decide), fun _ => ?_⟩
          refine ⟨[], [it], by simp, ?_, Or.inr ⟨rfl, by simp; omega⟩⟩
          intro x hx
          rw [List.mem_singleton.mp hx]
          exact hstall
        · split at h
          · injection h with h
            injection h with h1 h
            injection h with h2 h3
            subst h1 h2 h3
            exact ⟨List.length_take_le _ _, fun he => absurd he (by decide), fun hst => absurd hst (by decide)⟩
          · rename_i hnofive _
            obtain ⟨⟨c2, r2, s2⟩, hrec, hmap⟩ := Option.map_eq_some'.mp h
            injection hmap with h1 h
            injection h with h2 h3
            subst h1 h2 h3
            obtain ⟨L1, L2, L3⟩ := ih (collectFrom links it.hrefs) it.count (attempts + 1)
              (by omega) c2 r2 s2 hrec
            refine ⟨L1, L2, fun hst => ?_⟩
            obtain ⟨p₁, p₂, hsplit, hcounts, hlen⟩ := L3 hst
            rcases hlen with h5 | ⟨hp1, h5⟩
            · exact ⟨it :: p₁, p₂, by simp [hsplit], fun x hx => hcounts x hx, Or.inl h5⟩
            · subst hp1
              refine ⟨[], it :: p₂, by simp [hsplit], ?_, Or.inr ⟨rfl, by simp; omega⟩⟩
              intro x hx
              rcases List.mem_cons.mp hx with hx | hx
              · rw [hx]; exact hstall
              · have hc := hcounts x hx
                rw [show prevCount it.count ([] : List ScrollIter) = it.count from rfl] at hc
                rw [hc]
                exact hstall
      · rename_i hdiff
        split at h
        · injection h with h
          injection h with h1 h
          injection h with h2 h3
          subst h1 h2 h3
          exact ⟨List.length_take_le _ _, fun he => absurd he (by decide), fun hst => absurd hst (by decide)⟩
        · obtain ⟨⟨c2, r2, s2⟩, hrec, hmap⟩ := Option.map_eq_some'.mp h
          injection hmap with h1 h
          injection h with h2 h3
          subst h1 h2 h3
          obtain ⟨L1, L2, L3⟩ := ih (collectFrom links it.hrefs) it.count 0
            (by omega) c2 r2 s2 hrec
          refine ⟨L1, L2, fun hst => ?_⟩
          obtain ⟨p₁, p₂, hsplit, hcounts, hlen⟩ := L3 hst
          have h5 : p₂.length = 5 := by rcases hlen with h5 | ⟨_, h5⟩ <;> omega
          exact ⟨it :: p₁, p₂, by simp [hsplit], fun x hx => hcounts x hx, Or.inl h5⟩

/-- C2 counterexample: with `max_results = 2`, a trace whose single
iteration yields one link and a failing scroll makes the loop break and
return 1 < 2 links after one iteration — so fewer than N links can be
returned without 5 consecutive no-growth iterations. -/
theorem C2_counterexample :
    scrollAndCollectResults 2 [⟨[some "a"], 1, false⟩] =
      some ([⟨[some "a"], 1, false⟩], ["a"], .scrollFail) ∧
    (["a"] : List String).length < 2 ∧
    ([⟨[some "a"], 1, false⟩] : List ScrollIter).length < 5 := by
  refine ⟨by decide, by decide, by decide⟩

/-- C2 (amended): listing discovery returns at most `max_results`
unique links, and it returns fewer than that only when either the
scroll action raised an exception and broke the loop, or after 5
consecutive iterations whose rendered-element count was unchanged
(hence did not grow), the stall counter having reset on any change. -/
theorem C2_amended (N : Nat) (trace c : List ScrollIter) (r : List String)
    (reason : StopReason)
    (h : scrollAndCollectResults N trace = some (c, r, reason)) :
    r.length ≤ N ∧
    (r.length < N → reason = .scrollFail ∨
      (reason = .stalled ∧ ∃ p₁ p₂, c = p₁ ++ p₂ ∧ p₂.length = 5 ∧
        ∀ it ∈ p₂, it.count = prevCount 0 p₁)) := by
  obtain ⟨L1, L2, L3⟩ := scrollLoop_spec N trace [] 0 0 (by omega) c r reason h
  refine ⟨L1, fun hlt => ?_⟩
  cases reason with
  | enough => exact absurd (L2 rfl) (by omega)
  | stalled =>
    obtain ⟨p₁, p₂, hsplit, hcounts, hlen⟩ := L3 rfl
    have h5 : p₂.length = 5 := by rcases hlen with h5 | ⟨_, h5⟩ <;> omega
    exact Or.inr ⟨rfl, p₁, p₂, hsplit, h5, hcounts⟩
  | scrollFail => exact Or.inl rfl

/-- C2 amended witness: with `max_results = 1` and five iterations that
render nothing, the loop stops stalled after exactly 5 unchanged-count
iterations and returns 0 < 1 links. -/
theorem C2_amended_witness :
    scrollAndCollectResults 1 (List.replicate 5 ⟨[], 0, true⟩) =
      some (List.replicate 5 ⟨[], 0, true⟩, [], .stalled) ∧
    (([] : List String).length ≤ 1 ∧
      (([] : List String).length < 1 → StopReason.stalled = .scrollFail ∨
        (StopReason.stalled = .stalled ∧
          ∃ p₁ p₂, List.replicate 5 (⟨[], 0, true⟩ : ScrollIter) = p₁ ++ p₂ ∧
            p₂.length = 5 ∧ ∀ it ∈ p₂, it.count = prevCount 0 p₁))) :=
  ⟨by decide,
    C2_amended 1 (List.replicate 5 ⟨[], 0, true⟩) (List.replicate 5 ⟨[], 0, true⟩)
      [] .stalled (by decide)⟩

/-! ## Export layer (storage.py) and the export phase of `run`

Each DataManager export method guards on missing preconditions and
wraps its whole body in `try/except`, returning "" on a raise; the
artifact content is abstracted to the record list handed in (the
flattening applied by the tabular writers is content-bearing but not
claim-relevant).  A failed write is modelled as producing no
artifact. -/

/-- Result of one export attempt: the returned filepath ("" on guard
or failure) and the file write performed, if any. -/
abbrev ExportOut (α : Type) := String × Option (String × List α)

/-- The body of an export method inside its `try`: the underlying
library write either succeeds with the filepath or raises. -/
def exportWriteImpl (α : Type) (filepath : String) (data : List α) (writeOk : Bool) :
    Except PyErr (ExportOut α) :=
  if writeOk then .ok (filepath, some (filepath, data)) else .error .otherError

/-- The `try/except` wrapping every DataManager export method
(storage.py): a raise is logged and turned into the empty return. -/
def swallowExport (α : Type) (body : Except PyErr (ExportOut α)) : ExportOut α :=
  match body with
  | .ok out => out
  | .error _ => ("", none)

/-- `save_json` (storage.py lines 46-59): guard only on a missing
session directory — an empty record list is still written. -/
def saveJson (α : Type) (dir : String) (data : List α) (writeOk : Bool) : ExportOut α :=
  if dir = "" then ("", none)
  else swallowExport α (exportWriteImpl α (dir ++ "/places_data.json") data writeOk)

/-- `export_to_csv` (storage.py lines 62-117): guard on a missing
session directory or empty data, then the guarded write. -/
def exportToCsv (α : Type) (dir : String) (data : List α) (writeOk : Bool) : ExportOut α :=
  if dir = "" ∨ data.isEmpty = true then ("", none)
  else swallowExport α (exportWriteImpl α (dir ++ "/places_data.csv") data writeOk)

/-- `export_to_excel` (storage.py lines 119-172): same guards as CSV. -/
def exportToExcel (α : Type) (dir : String) (data : List α) (writeOk : Bool) : ExportOut α :=
  if dir = "" ∨ data.isEmpty = true then ("", none)
  else swallowExport α (exportWriteImpl α (dir ++ "/places_data.xlsx") data writeOk)

/-- `save_to_sqlite` (storage.py lines 174-228): same guards as CSV. -/
def saveToSqlite (α : Type) (dir : String) (data : List α) (writeOk : Bool) : ExportOut α :=
  if dir = "" ∨ data.isEmpty = true then ("", none)
  else swallowExport α (exportWriteImpl α (dir ++ "/places_data.db") data writeOk)

/-- Which of the four underlying library writes succeed during one
export phase. -/
structure StorageEnv where
  jsonOk : Bool
  csvOk : Bool
  sqliteOk : Bool
  excelOk : Bool
deriving DecidableEq, Repr

/-- The four export formats, in the order `run` attempts them
(scraper.py lines 177-180). -/
inductive ExportKind where
  | json
  | csv
  | sqlite
  | excel
deriving DecidableEq, Repr

/-- Outcome of the export phase of `run`: which exports were attempted,
in order, and each outcome. -/
structure ExportPhase (α : Type) where
  attempted : List ExportKind
  json : ExportOut α
  csv : ExportOut α
  sqlite : ExportOut α
  excel : ExportOut α

/-- The export phase of `run` in the exception monad: the four export
calls in source order.  Each callee swallows its own exceptions, so the
sequence reaches all four attempts and the phase itself never raises. -/
def runExportPhase (α : Type) (dir : String) (data : List α) (env : StorageEnv) :
    Except PyErr (ExportPhase α) := do
  let j := saveJson α dir data env.jsonOk
  let c := exportToCsv α dir data env.csvOk
  let s := saveToSqlite α dir data env.sqliteOk
  let e := exportToExcel α dir data env.excelOk
  pure ⟨[.json, .csv, .sqlite, .excel], j, c, s, e⟩

/-- C7: the four export attempts are isolated: for every record list
and every pattern of underlying write failures, the phase raises
nothing, all four formats are attempted in order, and each format's
outcome depends only on its own write result — a failure leaves only
that format's artifact missing. -/
theorem C7_export_isolation (α : Type) (dir : String) (data : List α) (env : StorageEnv) :
    ∃ res : ExportPhase α, runExportPhase α dir data env = .ok res ∧
      res.attempted = [.json, .csv, .sqlite, .excel] ∧
      res.json = saveJson α dir data env.jsonOk ∧
      res.csv = exportToCsv α dir data env.csvOk ∧
      res.sqlite = saveToSqlite α dir data env.sqliteOk ∧
      res.excel = exportToExcel α dir data env.excelOk :=
  ⟨_, rfl, rfl, rfl, rfl, rfl, rfl⟩

/-- C10: with an empty record list and a session directory in place,
the three tabular exports return "" and write nothing (their empty-data
guard fires before any file is touched), while `save_json` still writes
its file containing the empty list; the tabular artifacts therefore do
not exist after an empty run. -/
theorem C10_empty_run_exports (α : Type) (dir : String) (hdir : dir ≠ "")
    (okCsv okSqlite okExcel : Bool) :
    exportToCsv α dir ([] : List α) okCsv = ("", none) ∧
    exportToExcel α dir ([] : List α) okExcel = ("", none) ∧
    saveToSqlite α dir ([] : List α) okSqlite = ("", none) ∧
    saveJson α dir ([] : List α) true =
      (dir ++ "/places_data.json", some (dir ++ "/places_data.json", ([] : List α))) := by
  refine ⟨?_, ?_, ?_, ?_⟩
  · simp [exportToCsv]
  · simp [exportToExcel]
  · simp [saveToSqlite]
  · simp [saveJson, swallowExport, exportWriteImpl, hdir]

/-- C10 witness: a concrete empty run over a non-empty session
directory. -/
theorem C10_empty_run_exports_witness :
    exportToCsv Nat "out" ([] : List Nat) false = ("", none) ∧
    exportToExcel Nat "out" ([] : List Nat) true = ("", none) ∧
    saveToSqlite Nat "out" ([] : List Nat) true = ("", none) ∧
    saveJson Nat "out" ([] : List Nat) true =
      ("out" ++ "/places_data.json", some ("out" ++ "/places_data.json", ([] : List Nat))) :=
  C10_empty_run_exports Nat "out" (by decide) false true true

/-! ## Run lifecycle (`run` and `setup_driver`, scraper.py lines 26-186) -/

/-- The browser choices of `setup_driver`. -/
inductive Browser where
  | chrome
  | firefox
  | edge
  | safari
  | unsupported
deriving DecidableEq, Repr

/-- The environment of one `run`: whether driver construction succeeds
(for the branches that reach it), whether the search phase finds its
results panel in time, and whether the discovery plus per-listing phase
finishes without an unexpected raise (listing-level failures are
swallowed inside the loop and do not count). -/
structure RunEnv where
  driverInitOk : Bool
  searchOk : Bool
  bodyOk : Bool
deriving DecidableEq, Repr

/-- The driver slot of the scraper plus a count of `quit` calls. -/
structure DriverState where
  created : Bool
  quitCalls : Nat
deriving DecidableEq, Repr

/-- `setup_driver` (scraper.py lines 45-118).  The chrome and safari
branches dereference `sys.platform`, but scraper.py never imports
`sys`, so both raise `NameError` before any driver is constructed; the
firefox and edge branches construct the driver when the driver manager
and constructor succeed; an unknown browser name raises `ValueError`. -/
def setupDriver : Browser → RunEnv → DriverState → DriverState × Option PyErr
  | .chrome, _, s => (s, some .nameError)
  | .safari, _, s => (s, some .nameError)
  | .firefox, env, s =>
    if env.driverInitOk then ({ s with created := true }, none)
    else (s, some .webDriverError)
  | .edge, env, s =>
    if env.driverInitOk then ({ s with created := true }, none)
    else (s, some .webDriverError)
  | .unsupported, _, s => (s, some .valueError)

/-- The `try` body of `run`: driver setup, then the search (whose
timeout is re-raised by `_perform_search`), then discovery, the
per-listing loop (which swallows listing failures) and the export phase
(which swallows export failures); only an unexpected raise escapes. -/
def runBody (b : Browser) (env : RunEnv) (s : DriverState) : DriverState × Option PyErr :=
  match setupDriver b env s with
  | (s2, some e) => (s2, some e)
  | (s2, none) =>
    if env.searchOk = false then (s2, some .timeoutError)
    else if env.bodyOk = false then (s2, some .otherError)
    else (s2, none)

/-- `run` (scraper.py lines 121-186): the `try` body, an
`except Exception` that logs and swallows, and a `finally` that quits
the driver when one was created.  Returns the final driver state and
whether `run` itself re-raised. -/
def runScraper (b : Browser) (env : RunEnv) : DriverState × Bool :=
  let bodyOut := runBody b env ⟨false, 0⟩
  let s := bodyOut.1
  let s := if s.created then { s with quitCalls := s.quitCalls + 1 } else s
  (s, false)

/-- C8: on every exit path of `run` — normal completion, swallowed
listing errors, and fatal errors such as driver-construction failure or
search timeout — `run` does not re-raise, and the driver is quit
exactly once when it was created and never otherwise. -/
theorem C8_browser_cleanup (b : Browser) (env : RunEnv) :
    (runScraper b env).2 = false ∧
    (runScraper b env).1.quitCalls =
      (if (runScraper b env).1.created then 1 else 0) := by
  rcases env with ⟨di, so, bo⟩
  cases b <;> cases di <;> cases so <;> cases bo <;>
    simp [runScraper, runBody, setupDriver]

end YandexScrape
